import Mathlib

/-!
Verification of the weather-forecasting service (`src/routes.py`).

The embedding below translates the request handlers of `routes.py` into
Lean. Conventions used throughout:

* Python floats are modelled as rationals (`ℚ`); the handlers only compare,
  round and add them, which rationals represent exactly.
* Epoch timestamps are naturals (seconds since 1970-01-01). The code calls
  `datetime.fromtimestamp`, i.e. converts to *local* time; the local zone is
  modelled as UTC (offset 0), which is the structure-preserving choice: every
  claim under study is invariant under a fixed zone offset.
* A JSON field that a handler reads with `.get` (so possibly absent) is an
  `Option`; a field read with `[...]` (whose absence would raise and be caught
  by the handler's `except` clause) is a plain field of the payload structure.
* A Flask handler is a function from its parsed inputs (body / query
  parameters / upstream response) to a `Reply`, which records the HTTP status
  and JSON outcome the handler returns.
-/

namespace Weather

/-- Day number used as grouping key: `datetime.fromtimestamp(t).strftime('%Y-%m-%d')`
is in bijection with the
day number `t / 86400`; the grouping key of `predict` is modelled as this
number. -/
def dateOf (t : Nat) : Nat := t / 86400

/-- Hour of day, `datetime.fromtimestamp(t).hour`, for a UTC-modelled local zone. -/
def hourOf (t : Nat) : Nat := t % 86400 / 3600

/-- Minute of hour, `datetime.fromtimestamp(t).minute`. -/
def minuteOf (t : Nat) : Nat := t % 3600 / 60

/-- Second of minute, `datetime.fromtimestamp(t).second`. -/
def secondOf (t : Nat) : Nat := t % 60

/-- Civil date (year, month, day) from a day number counted from 1970-01-01,
the standard days-to-civil algorithm specialised to nonnegative day counts. -/
def civilFromDays (days : Nat) : Nat × Nat × Nat :=
  let z := days + 719468
  let era := z / 146097
  let doe := z % 146097
  let yoe := (doe - doe / 1460 + doe / 36524 - doe / 146096) / 365
  let doy := doe - (365 * yoe + yoe / 4 - yoe / 100)
  let mp := (5 * doy + 2) / 153
  let d := doy - (153 * mp + 2) / 5 + 1
  let m := if mp < 10 then mp + 3 else mp - 9
  (yoe + era * 400 + (if m ≤ 2 then 1 else 0), m, d)

/-- Weekday number with 0 = Sunday; 1970-01-01 was a Thursday. -/
def weekdayOf (days : Nat) : Nat := (days + 4) % 7

def weekdayName : Nat → String
  | 0 => "Sunday"
  | 1 => "Monday"
  | 2 => "Tuesday"
  | 3 => "Wednesday"
  | 4 => "Thursday"
  | 5 => "Friday"
  | _ => "Saturday"

def monthAbbrev : Nat → String
  | 1 => "Jan"
  | 2 => "Feb"
  | 3 => "Mar"
  | 4 => "Apr"
  | 5 => "May"
  | 6 => "Jun"
  | 7 => "Jul"
  | 8 => "Aug"
  | 9 => "Sep"
  | 10 => "Oct"
  | 11 => "Nov"
  | _ => "Dec"

/-- Two-digit zero-padded decimal, as strftime's `%d`, `%H`, `%M`, `%S`. -/
def pad2 (n : Nat) : String := if n < 10 then ("0") ++ toString n else toString n

/-- Label `strftime('%A, %b %d')` of the local datetime of epoch second `t`. -/
def dateLabel (t : Nat) : String :=
  let c := civilFromDays (dateOf t)
  weekdayName (weekdayOf (dateOf t)) ++ ", " ++ monthAbbrev c.2.1 ++ " " ++ pad2 c.2.2

/-- Label `strftime('%A, %b %d %H:%M')`. -/
def fullDatetimeLabel (t : Nat) : String :=
  dateLabel t ++ " " ++ pad2 (hourOf t) ++ ":" ++ pad2 (minuteOf t)

/-- Label `strftime('%H:%M:%S')`, used for sunrise/sunset. -/
def timeLabel (t : Nat) : String :=
  pad2 (hourOf t) ++ ":" ++ pad2 (minuteOf t) ++ ":" ++ pad2 (secondOf t)

/-- Python3 `round` rounds half to even (banker's rounding). -/
def roundHalfEven (q : ℚ) : ℤ :=
  let f := ⌊q⌋
  if q - f < 1 / 2 then f
  else if (1 : ℚ) / 2 < q - f then f + 1
  else if f % 2 = 0 then f else f + 1

/-- Python `round(q, 1)`. -/
def round1 (q : ℚ) : ℚ := (roundHalfEven (q * 10) : ℚ) / 10

/-- Recursion of `str.title()` on the characters: an alphabetic character is uppercased
when the previous character was not alphabetic and lowercased otherwise. The
boolean argument tracks whether the previous character was alphabetic. -/
def titleChars : Bool → List Char → List Char
  | _, [] => []
  | prev, c :: cs =>
    if c.isAlpha then (if prev then c.toLower else c.toUpper) :: titleChars true cs
    else c :: titleChars false cs

/-- Python `str.title()` (restricted to ASCII-cased characters). -/
def title (s : String) : String := ⟨titleChars false s.data⟩

/-- One 3-hour forecast sample of the upstream `list`, with exactly the fields
`predict` reads. `rain_3h` / `snow_3h` model `forecast.get('rain', {}).get('3h')`
(absent dictionary or absent key both collapse to `none`); `visibility` models
`forecast.get('visibility')`. All other fields are read with `[...]`. -/
structure Forecast where
  dt : Nat
  main_temp : ℚ
  main_feels_like : ℚ
  main_temp_min : ℚ
  main_temp_max : ℚ
  main_humidity : ℚ
  main_pressure : ℚ
  wind_speed : ℚ
  wind_deg : ℚ
  clouds_all : ℚ
  visibility : Option ℚ
  weather_description : String
  weather_icon : String
  rain_3h : Option ℚ
  snow_3h : Option ℚ
deriving DecidableEq

/-- Membership test `date_key in daily_forecasts` and read access on the
insertion-ordered dictionary, modelled as an association list. -/
def lookupDate : List (Nat × Forecast) → Nat → Option Forecast
  | [], _ => none
  | p :: rest, d => if p.1 = d then some p.2 else lookupDate rest d

/-- Assignment `daily_forecasts[date_key] = {...}`: in-place update of an existing key
(Python dicts keep the original position) or append of a new one. -/
def setDate : List (Nat × Forecast) → Nat → Forecast → List (Nat × Forecast)
  | [], d, f => [(d, f)]
  | p :: rest, d, f =>
    if p.1 = d then (d, f) :: rest else p :: setDate rest d f

/-- Loop body of `predict`'s grouping loop:
`if date_key not in daily_forecasts or dt.hour == 12: daily_forecasts[date_key] = ...`. -/
def dailyStep (acc : List (Nat × Forecast)) (f : Forecast) : List (Nat × Forecast) :=
  if lookupDate acc (dateOf f.dt) = none ∨ hourOf f.dt = 12
  then setDate acc (dateOf f.dt) f
  else acc

/-- The `daily_forecasts` dictionary after the grouping loop. -/
def dailyForecasts (l : List Forecast) : List (Nat × Forecast) :=
  l.foldl dailyStep []

/-- Comparison used by `sorted(daily_forecasts.items(), key=lambda x: x[1]['timestamp'])`:
`datetime.fromtimestamp` is strictly monotone in the epoch value, so ordering
by the stored datetime is ordering by `dt`. -/
def byDt (p q : Nat × Forecast) : Prop := p.2.dt ≤ q.2.dt

instance : DecidableRel byDt := fun p q => inferInstanceAs (Decidable (p.2.dt ≤ q.2.dt))

instance : IsTotal (Nat × Forecast) byDt := ⟨fun p q => Nat.le_total p.2.dt q.2.dt⟩

instance : IsTrans (Nat × Forecast) byDt := ⟨fun _ _ _ => Nat.le_trans⟩

/-- Python `sorted` is a stable sort; a stable insertion sort has the same
input/output behaviour. -/
def sortByDt (l : List (Nat × Forecast)) : List (Nat × Forecast) :=
  List.insertionSort byDt l

/-- Value of `sorted_forecasts = sorted(daily_forecasts.items(), key=...)[:5]`. -/
def retainedPairs (l : List Forecast) : List (Nat × Forecast) :=
  (sortByDt (dailyForecasts l)).take 5

/-- Result of `forecast.get('visibility', 'N/A')`: the JSON value placed in the summary
is either the number provided upstream or the literal string sentinel. -/
inductive VisVal where
  | num (q : ℚ)
  | na
deriving DecidableEq

/-- One entry of the `predictions` array built by `predict`. -/
structure DailySummary where
  day_offset : Nat
  date : String
  full_datetime : String
  temperature : ℚ
  feels_like : ℚ
  temp_min : ℚ
  temp_max : ℚ
  humidity : ℚ
  pressure : ℚ
  wind_speed : ℚ
  wind_deg : ℚ
  cloudiness : ℚ
  visibility : VisVal
  weather_description : String
  weather_icon : String
  precipitation : ℚ
deriving DecidableEq

/-- The dictionary appended for index `idx` and retained sample `f`. -/
def mkSummary (idx : Nat) (f : Forecast) : DailySummary where
  day_offset := idx
  date := dateLabel f.dt
  full_datetime := fullDatetimeLabel f.dt
  temperature := round1 f.main_temp
  feels_like := round1 f.main_feels_like
  temp_min := round1 f.main_temp_min
  temp_max := round1 f.main_temp_max
  humidity := f.main_humidity
  pressure := f.main_pressure
  wind_speed := round1 f.wind_speed
  wind_deg := f.wind_deg
  cloudiness := f.clouds_all
  visibility := match f.visibility with
    | some v => .num v
    | none => .na
  weather_description := title f.weather_description
  weather_icon := f.weather_icon
  precipitation := f.rain_3h.getD 0 + f.snow_3h.getD 0

/-- The `predictions` array: `for idx, (date_key, data) in enumerate(sorted_forecasts)`. -/
def predictions (l : List Forecast) : List DailySummary :=
  (retainedPairs l).enum.map fun p => mkSummary p.1 p.2.2

/-- Outcome of a handler: HTTP 200 with a success payload, or an error status
with the message of the `'error'` field. -/
inductive Reply (α : Type) where
  | ok (val : α)
  | err (status : Nat) (msg : String)
deriving DecidableEq

/-- HTTP status of a reply (`jsonify` without a code is 200). -/
def statusOf {α : Type} : Reply α → Nat
  | .ok _ => 200
  | .err s _ => s

/-- Parsed JSON body of `POST /api/predict`. A coordinate field present with a
numeric (or numeric-string) value is `some`; an absent field is `none`. -/
structure PredictBody where
  latitude : Option ℚ
  longitude : Option ℚ
  location_name : Option String
deriving DecidableEq

/-- Lines 61–72 of `routes.py`: presence check (`if not data or 'latitude' not
in data or 'longitude' not in data`, where a `None` body and a body missing a
field take the same branch), then the range checks. -/
def validateCoords (body : Option PredictBody) : Reply (ℚ × ℚ) :=
  match body with
  | none => .err 400 ("Missing required fields: latitude, longitude")
  | some b =>
    match b.latitude, b.longitude with
    | some lat, some lon =>
      if ¬(-90 ≤ lat ∧ lat ≤ 90) then
        .err 400 ("Invalid latitude. Must be between -90 and 90")
      else if ¬(-180 ≤ lon ∧ lon ≤ 180) then
        .err 400 ("Invalid longitude. Must be between -180 and 180")
      else .ok (lat, lon)
    | _, _ => .err 400 ("Missing required fields: latitude, longitude")

/-- The `city` block of the forecast payload; every field is read with `.get`. -/
structure City where
  name : Option String
  country : Option String
  sunrise : Option Nat
  sunset : Option Nat
deriving DecidableEq

/-- Decoded body of a forecast response: `forecast_data.get("city", {})` and
`forecast_data.get("list", [])`. -/
structure ForecastPayload where
  city : City
  list : List Forecast
deriving DecidableEq

/-- Result of `requests.get` on the forecast endpoint: a network/timeout
exception, or a response with a status code, an optional `message` field
(read by the non-200 branch) and the decoded payload. -/
inductive UpstreamOutcome where
  | netFailure
  | response (status : Nat) (message : Option String) (payload : ForecastPayload)
deriving DecidableEq

/-- Fallback label `f'Lat: {latitude}, Lon: {longitude}'` (numeric formatting abstracted by
`toString` on the rational). -/
def locationLabel (lat lon : ℚ) : String :=
  "Lat: " ++ toString lat ++ ", Lon: " ++ toString lon

/-- Value of `'%H:%M:%S' if city.get('sunrise') else 'N/A'`: Python truthiness makes
both an absent field and the value 0 print the sentinel. -/
def sunLabel (v : Option Nat) : String :=
  match v with
  | some t => if t ≠ 0 then timeLabel t else ("N/A")
  | none => "N/A"

/-- The `location` block plus `predictions` of a successful `predict` reply. -/
structure PredictSuccess where
  latitude : ℚ
  longitude : ℚ
  name : String
  country : String
  sunrise : String
  sunset : String
  predictions : List DailySummary
deriving DecidableEq

/-- The `POST /api/predict` handler (lines 47–169 of `routes.py`), from its
parsed inputs: body, configured API key (`None` and empty string are both
falsy, modelled as `none`) and upstream outcome. A network failure raises
inside the `try`, reaching `except Exception` → 500. -/
def predict (body : Option PredictBody) (apiKey : Option String)
    (up : UpstreamOutcome) : Reply PredictSuccess :=
  match validateCoords body with
  | .err s m => .err s m
  | .ok (lat, lon) =>
    let locName := (body.bind PredictBody.location_name).getD (locationLabel lat lon)
    match apiKey with
    | none => .err 500 ("OpenWeatherMap API key not configured")
    | some _ =>
      match up with
      | .netFailure => .err 500 ("Failed to generate predictions")
      | .response status msg payload =>
        if status ≠ 200 then
          .err 500 ("Weather API error: " ++ msg.getD ("Could not retrieve forecast data"))
        else
          .ok { latitude := lat
                longitude := lon
                name := payload.city.name.getD locName
                country := payload.city.country.getD ("")
                sunrise := sunLabel payload.city.sunrise
                sunset := sunLabel payload.city.sunset
                predictions := predictions payload.list }

/-- Leading decimal digits of a character list, and the rest. -/
def splitDigits : List Char → List Char × List Char
  | [] => ([], [])
  | c :: cs =>
    if c.isDigit then
      let p := splitDigits cs
      (c :: p.1, p.2)
    else ([], c :: cs)

/-- Numeric value of a digit list. -/
def digitsVal (ds : List Char) : Nat :=
  ds.foldl (fun n c => 10 * n + (c.toNat - 48)) 0

/-- Python `float(s)` restricted to plain decimal literals
(`[+-]? digits [. digits]` with at least one digit): `none` is a raised
`ValueError`. Exponents, `inf`/`nan`, whitespace and underscores are outside
the inputs this development evaluates. -/
def pyFloat (s : String) : Option ℚ :=
  let p : ℚ × List Char :=
    match s.data with
    | '-' :: rest => (-1, rest)
    | '+' :: rest => (1, rest)
    | cs => (1, cs)
  let ip := splitDigits p.2
  match ip.2 with
  | [] => if ip.1 = [] then none else some (p.1 * digitsVal ip.1)
  | '.' :: rest2 =>
    let fp := splitDigits rest2
    if fp.2 = [] ∧ (ip.1 ≠ [] ∨ fp.1 ≠ []) then
      some (p.1 * ((digitsVal ip.1 : ℚ) + (digitsVal fp.1 : ℚ) / (10 ^ fp.1.length : ℕ)))
    else none
  | _ => none

/-- Current-weather payload fields read by `get_current_weather`:
`weather_data.get('name', '')` is optional, the `main`/`wind` scalars are
indexed, and `weather` is the list whose head (description, icon) is read
with `weather_data['weather'][0]`. -/
structure CurrentPayload where
  name : Option String
  main_temp : ℚ
  main_humidity : ℚ
  main_pressure : ℚ
  wind_speed : ℚ
  weather : List (String × String)
deriving DecidableEq

/-- Result of `requests.get` on the current-weather endpoint. -/
inductive CurrentUpstream where
  | netFailure
  | response (status : Nat) (message : Option String) (payload : CurrentPayload)
deriving DecidableEq

/-- The `data` block of a successful current-weather reply. -/
structure CurrentData where
  latitude : ℚ
  longitude : ℚ
  location_name : String
  temperature : ℚ
  humidity : ℚ
  pressure : ℚ
  wind_speed : ℚ
  weather_description : String
  weather_icon : String
deriving DecidableEq

/-- The `GET /api/weather/current` handler (lines 172–223 of `routes.py`).
`float(request.args.get(...))` raises `TypeError` on an absent parameter and
`ValueError` on a malformed one; the handler's only `except` clause is
`except Exception` → 500, so both surface as 500, as does an empty `weather`
list (`IndexError`). -/
def getCurrentWeather (latArg lonArg : Option String) (apiKey : Option String)
    (up : CurrentUpstream) : Reply CurrentData :=
  match latArg.bind pyFloat, lonArg.bind pyFloat with
  | some lat, some lon =>
    (match apiKey with
     | none => .err 500 ("OpenWeatherMap API key not configured")
     | some _ =>
       match up with
       | .netFailure => .err 500 ("Failed to fetch weather data")
       | .response status msg payload =>
         if status ≠ 200 then
           .err 500 ("Weather API error: " ++ msg.getD ("Could not retrieve weather data"))
         else
           match payload.weather with
           | [] => .err 500 ("Failed to fetch weather data")
           | w :: _ =>
             .ok { latitude := lat
                   longitude := lon
                   location_name := payload.name.getD ("")
                   temperature := payload.main_temp
                   humidity := payload.main_humidity
                   pressure := payload.main_pressure
                   wind_speed := payload.wind_speed
                   weather_description := w.1
                   weather_icon := w.2 })
  | _, _ => .err 500 ("Failed to fetch weather data")

/-- One row of the `predictions` table (`models.py`, class `Prediction`),
with `created_at` as an epoch-second instant. -/
structure PredictionRec where
  id : Nat
  created_at : Nat
  prediction_date : Nat
  latitude : ℚ
  longitude : ℚ
  location_name : Option String
  event_type : Option String
  probability : Option ℚ
  confidence : Option ℚ
  predicted_temperature : Option ℚ
  predicted_precipitation : Option ℚ
  predicted_wind_speed : Option ℚ
  model_name : Option String
  model_version : Option String
deriving DecidableEq

/-- The bounding-box filter `latitude.between(lat-0.5, lat+0.5)` and the
longitude analogue. -/
def inBBox (lat lon : ℚ) (p : PredictionRec) : Bool :=
  decide (lat - 1 / 2 ≤ p.latitude) && decide (p.latitude ≤ lat + 1 / 2) &&
  decide (lon - 1 / 2 ≤ p.longitude) && decide (p.longitude ≤ lon + 1 / 2)

/-- Ordering `order_by(Prediction.created_at.desc())`: newer first. -/
def byCreatedDesc (p q : PredictionRec) : Prop := q.created_at ≤ p.created_at

instance : DecidableRel byCreatedDesc :=
  fun p q => inferInstanceAs (Decidable (q.created_at ≤ p.created_at))

instance : IsTotal PredictionRec byCreatedDesc :=
  ⟨fun p q => Nat.le_total q.created_at p.created_at⟩

instance : IsTrans PredictionRec byCreatedDesc :=
  ⟨fun _ _ _ h h' => Nat.le_trans h' h⟩

def sortByCreatedDesc (l : List PredictionRec) : List PredictionRec :=
  List.insertionSort byCreatedDesc l

/-- The `GET /api/predictions/history` handler (lines 262–291 of `routes.py`).
`request.args.get(..., type=float)` yields `None` for an absent or
unparseable parameter; `if latitude and longitude` is Python truthiness, so
the filter is applied only when both parsed values are non-`None` and
nonzero. `limit` defaults to 100. -/
def getPredictionHistory (latArg lonArg : Option ℚ) (limitArg : Option Nat)
    (db : List PredictionRec) : List PredictionRec :=
  (sortByCreatedDesc
    (match latArg, lonArg with
      | some lat, some lon =>
        if lat ≠ 0 ∧ lon ≠ 0 then db.filter (inBBox lat lon) else db
      | _, _ => db)).take (limitArg.getD 100)

/-- Parsed JSON body of `POST /api/train`, when it is a JSON object. -/
structure TrainBody where
  model_type : Option String
  event_type : Option String
deriving DecidableEq

/-- A successful training acknowledgement. -/
structure TrainAck where
  message : String
  model_type : String
  event_type : Option String
  status : String
deriving DecidableEq

/-- The `POST /api/train` handler (lines 317–344 of `routes.py`). A body that
parses to `None` (JSON `null`), or whose parsing raises, makes
`data.get('model_type', ...)` raise `AttributeError`, caught by
`except Exception` → 500. -/
def trainModel (body : Option TrainBody) : Reply TrainAck :=
  match body with
  | none => .err 500 ("Failed to initiate training")
  | some b =>
    .ok { message := "Training initiated"
          model_type := b.model_type.getD ("ensemble")
          event_type := b.event_type
          status := "queued" }

/-- A forecast sample at epoch second `t` whose remaining fields are fixed
neutral values; used to evaluate the aggregation on concrete timestamp
patterns. -/
def sampleAt (t : Nat) : Forecast where
  dt := t
  main_temp := 0
  main_feels_like := 0
  main_temp_min := 0
  main_temp_max := 0
  main_humidity := 0
  main_pressure := 0
  wind_speed := 0
  wind_deg := 0
  clouds_all := 0
  visibility := none
  weather_description := ""
  weather_icon := ""
  rain_3h := none
  snow_3h := none

/-- First-hit choice on options, used to state what the grouping loop keeps. -/
def oor : Option Forecast → Option Forecast → Option Forecast
  | some f, _ => some f
  | none, b => b

/-- Stated from the spec's words, for comparison with the code's loop: among
the samples whose calendar date is `d`, the last hour-12 sample wins if one
exists, otherwise the first sample of the date is kept. -/
def specRetained (d : Nat) (l : List Forecast) : Option Forecast :=
  let ofDay := l.filter fun f => dateOf f.dt == d
  match (ofDay.filter fun f => hourOf f.dt == 12).getLast? with
  | some f => some f
  | none => ofDay.head?

/-- Samples on seven distinct days, presented out of order, one per day. -/
def scrambledWeek : List Forecast :=
  [3, 0, 5, 1, 6, 2, 4].map fun d => sampleAt (d * 86400)

lemma oor_none_right (a : Option Forecast) : oor a none = a := by
  cases a <;> rfl

lemma getLast?_cons_eq (a : Forecast) (l : List Forecast) :
    (a :: l).getLast? = oor l.getLast? (some a) := by
  induction l generalizing a with
  | nil => rfl
  | cons b t ih =>
    rw [List.getLast?_cons_cons, ih b]
    cases t.getLast? <;> rfl

lemma lookupDate_setDate (acc : List (Nat × Forecast)) (d : Nat) (f : Forecast)
    (d' : Nat) :
    lookupDate (setDate acc d f) d' = if d' = d then some f else lookupDate acc d' := by
  induction acc with
  | nil =>
    simp only [setDate, lookupDate]
    split_ifs <;> first | rfl | simp_all
  | cons p rest ih =>
    simp only [setDate]
    by_cases hk : p.1 = d
    · rw [if_pos hk]
      simp only [lookupDate]
      split_ifs <;> first | rfl | simp_all
    · rw [if_neg hk]
      simp only [lookupDate, ih]
      split_ifs <;> first | rfl | simp_all

/-- What the grouping loop of `predict` holds for date `d` after processing
`l` on top of an accumulator `acc`: the last hour-12 sample of date `d` in
`l` if any, else whatever `acc` held for `d`, else the first sample of date
`d` in `l`. -/
lemma lookup_foldl_dailyStep (l : List Forecast) (acc : List (Nat × Forecast))
    (d : Nat) :
    lookupDate (l.foldl dailyStep acc) d =
      oor ((l.filter fun f => dateOf f.dt == d && hourOf f.dt == 12).getLast?)
        (oor (lookupDate acc d) ((l.filter fun f => dateOf f.dt == d).head?)) := by
  induction l generalizing acc with
  | nil =>
    simp only [List.foldl_nil, List.filter_nil, List.getLast?_nil, List.head?_nil]
    rw [oor_none_right]
    rfl
  | cons f l ih =>
    rw [List.foldl_cons, ih]
    by_cases hd : dateOf f.dt = d
    · by_cases hnoon : hourOf f.dt = 12
      · rw [List.filter_cons, List.filter_cons, if_pos (by simp [hd, hnoon]),
          if_pos (by simp [hd]), getLast?_cons_eq]
        have hstep : dailyStep acc f = setDate acc (dateOf f.dt) f := by
          unfold dailyStep
          rw [if_pos (Or.inr hnoon)]
        rw [hstep, lookupDate_setDate, hd, if_pos rfl]
        cases (l.filter fun f => dateOf f.dt == d && hourOf f.dt == 12).getLast? <;> rfl
      · rw [List.filter_cons, List.filter_cons, if_neg (by simp [hnoon]),
          if_pos (by simp [hd]), List.head?_cons]
        by_cases hacc : lookupDate acc d = none
        · have hstep : dailyStep acc f = setDate acc (dateOf f.dt) f := by
            unfold dailyStep
            rw [if_pos (Or.inl (by rwa [hd]))]
          rw [hstep, lookupDate_setDate, hd, if_pos rfl, hacc]
          cases (l.filter fun f => dateOf f.dt == d && hourOf f.dt == 12).getLast? <;> rfl
        · have hstep : dailyStep acc f = acc := by
            unfold dailyStep
            rw [if_neg]
            push_neg
            exact ⟨by rwa [hd], hnoon⟩
          rw [hstep]
          obtain ⟨g, hg⟩ := Option.ne_none_iff_exists'.mp hacc
          rw [hg]
          cases (l.filter fun f => dateOf f.dt == d && hourOf f.dt == 12).getLast? <;> rfl
    · have hstep : lookupDate (dailyStep acc f) d = lookupDate acc d := by
        unfold dailyStep
        split_ifs with hc
        · rw [lookupDate_setDate, if_neg (fun hh => hd hh.symm)]
        · rfl
      rw [List.filter_cons, List.filter_cons, if_neg (by simp [hd]),
        if_neg (by simp [hd]), hstep]

/-- C1: the aggregator retains exactly one sample per calendar date; within a
date the first sample is kept by default and a later hour-12 sample replaces
it, so for every date the retained entry is the last noon sample when one
exists and the first sample otherwise (`specRetained`, stated from the
spec). In particular, a date with samples at hours 9 and 12 retains the
hour-12 sample, and a date with samples only at hours 0, 3, 6, 9 retains the
hour-0 sample. -/
theorem noon_replaces_first_retained :
    (∀ (l : List Forecast) (d : Nat),
      lookupDate (dailyForecasts l) d = specRetained d l) ∧
    lookupDate (dailyForecasts [sampleAt (9 * 3600), sampleAt (12 * 3600)]) 0 =
      some (sampleAt (12 * 3600)) ∧
    lookupDate (dailyForecasts
      [sampleAt 0, sampleAt (3 * 3600), sampleAt (6 * 3600), sampleAt (9 * 3600)]) 0 =
      some (sampleAt 0) := by
  refine ⟨?_, rfl, rfl⟩
  intro l d
  rw [dailyForecasts, lookup_foldl_dailyStep]
  have hcomm : (l.filter fun f => dateOf f.dt == d && hourOf f.dt == 12) =
      (l.filter fun f => hourOf f.dt == 12 && dateOf f.dt == d) :=
    List.filter_congr (fun a _ => Bool.and_comm _ _)
  simp only [specRetained, List.filter_filter]
  rw [hcomm]
  cases (l.filter fun f => hourOf f.dt == 12 && dateOf f.dt == d).getLast? <;> rfl

/-- C2: the aggregator sorts the retained per-date samples ascending by
timestamp, truncates to 5, and gives each summary a zero-based day offset
equal to its position; on seven distinct days, exactly the five earliest
days' entries remain, with offsets 0 through 4. -/
theorem sorted_truncated_offsets :
    (∀ l : List Forecast,
      (predictions l).map DailySummary.day_offset = List.range (predictions l).length) ∧
    (∀ l : List Forecast, (predictions l).length ≤ 5) ∧
    (∀ l : List Forecast, (retainedPairs l).Pairwise byDt) ∧
    retainedPairs scrambledWeek =
      [(0, sampleAt 0), (1, sampleAt 86400), (2, sampleAt (2 * 86400)),
        (3, sampleAt (3 * 86400)), (4, sampleAt (4 * 86400))] ∧
    (predictions scrambledWeek).map DailySummary.day_offset = [0, 1, 2, 3, 4] := by
  refine ⟨?_, ?_, ?_, rfl, rfl⟩
  · intro l
    unfold predictions
    rw [List.map_map]
    rw [show ((fun s : DailySummary => s.day_offset) ∘
        fun p : Nat × (Nat × Forecast) => mkSummary p.1 p.2.2) = Prod.fst from rfl]
    rw [List.enum_map_fst, List.length_map, List.enum_length]
  · intro l
    unfold predictions
    rw [List.length_map, List.enum_length, retainedPairs, List.length_take]
    exact min_le_left _ _
  · intro l
    have hs : List.Pairwise byDt (sortByDt (dailyForecasts l)) :=
      List.sorted_insertionSort byDt (dailyForecasts l)
    exact hs.sublist (List.take_sublist 5 _)

lemma lookupDate_eq_none_iff (acc : List (Nat × Forecast)) (d : Nat) :
    lookupDate acc d = none ↔ d ∉ acc.map Prod.fst := by
  induction acc with
  | nil => simp [lookupDate]
  | cons q rest ih =>
    simp only [lookupDate, List.map_cons, List.mem_cons]
    by_cases hq : q.1 = d
    · simp [hq]
    · have : d ≠ q.1 := fun h => hq h.symm
      simp [hq, ih, this]

lemma mem_setDate {acc : List (Nat × Forecast)} {d : Nat} {f : Forecast}
    {p : Nat × Forecast} (hp : p ∈ setDate acc d f) : p = (d, f) ∨ p ∈ acc := by
  induction acc with
  | nil => simpa [setDate] using hp
  | cons q rest ih =>
    simp only [setDate] at hp
    by_cases hq : q.1 = d
    · rw [if_pos hq] at hp
      rcases List.mem_cons.mp hp with h | h
      · exact Or.inl h
      · exact Or.inr (List.mem_cons_of_mem _ h)
    · rw [if_neg hq] at hp
      rcases List.mem_cons.mp hp with h | h
      · exact Or.inr (h ▸ List.mem_cons_self _ _)
      · rcases ih h with h2 | h2
        · exact Or.inl h2
        · exact Or.inr (List.mem_cons_of_mem _ h2)

lemma keys_setDate (acc : List (Nat × Forecast)) (d : Nat) (f : Forecast) :
    (setDate acc d f).map Prod.fst =
      if lookupDate acc d = none then acc.map Prod.fst ++ [d]
      else acc.map Prod.fst := by
  induction acc with
  | nil => simp [setDate, lookupDate]
  | cons q rest ih =>
    simp only [setDate]
    by_cases hq : q.1 = d
    · rw [if_pos hq, if_neg (by simp [lookupDate, hq])]
      simp [hq]
    · rw [if_neg hq]
      simp only [List.map_cons]
      by_cases hrest : lookupDate rest d = none
      · rw [if_pos (by simp [lookupDate, hq, hrest]), ih, if_pos hrest]
        rfl
      · rw [if_neg (by simp [lookupDate, hq, hrest]), ih, if_neg hrest]

lemma nodup_keys_setDate {acc : List (Nat × Forecast)} (d : Nat) (f : Forecast)
    (h : (acc.map Prod.fst).Nodup) : ((setDate acc d f).map Prod.fst).Nodup := by
  rw [keys_setDate]
  split_ifs with hl
  · rw [List.nodup_append]
    refine ⟨h, List.nodup_singleton d, ?_⟩
    intro a ha hd2
    rw [List.mem_singleton] at hd2
    subst hd2
    exact (lookupDate_eq_none_iff acc a).mp hl ha
  · exact h

/-- Invariant of the grouping loop: distinct date keys, and every stored pair
holds a sample from the input whose date is its key. -/
lemma dailyStep_foldl_invariant (l₀ : List Forecast) :
    ∀ (l : List Forecast) (acc : List (Nat × Forecast)),
      (∀ f ∈ l, f ∈ l₀) →
      ((acc.map Prod.fst).Nodup ∧ ∀ p ∈ acc, p.2 ∈ l₀ ∧ dateOf p.2.dt = p.1) →
      (((l.foldl dailyStep acc).map Prod.fst).Nodup ∧
        ∀ p ∈ l.foldl dailyStep acc, p.2 ∈ l₀ ∧ dateOf p.2.dt = p.1) := by
  intro l
  induction l with
  | nil => exact fun acc _ h => h
  | cons f l ih =>
    intro acc hsub hacc
    rw [List.foldl_cons]
    refine ih _ (fun g hg => hsub g (List.mem_cons_of_mem _ hg)) ?_
    unfold dailyStep
    split_ifs with hc
    · refine ⟨nodup_keys_setDate _ _ hacc.1, ?_⟩
      intro p hp
      rcases mem_setDate hp with h | h
      · subst h
        exact ⟨hsub f (List.mem_cons_self _ _), rfl⟩
      · exact hacc.2 p h
    · exact hacc

/-- C8: output summaries have pairwise-distinct calendar dates, and each one
is built from a sample occurring in the input whose date equals the date it
is keyed under. -/
theorem retained_distinct_dates_from_input (l : List Forecast) :
    ((retainedPairs l).map Prod.fst).Nodup ∧
      ∀ p ∈ retainedPairs l, p.2 ∈ l ∧ dateOf p.2.dt = p.1 := by
  have h := dailyStep_foldl_invariant l l [] (fun _ hf => hf)
    ⟨List.nodup_nil, by simp⟩
  have hperm := List.perm_insertionSort byDt (dailyForecasts l)
  constructor
  · have h2 : ((sortByDt (dailyForecasts l)).map Prod.fst).Nodup :=
      ((hperm.map Prod.fst).nodup_iff).mpr h.1
    rw [retainedPairs, List.map_take]
    exact h2.sublist (List.take_sublist 5 _)
  · intro p hp
    have hp2 : p ∈ sortByDt (dailyForecasts l) := List.take_subset 5 _ hp
    exact h.2 p (hperm.mem_iff.mp hp2)

/-- Witness for the membership part of `retained_distinct_dates_from_input`. -/
theorem retained_distinct_dates_from_input_witness :
    (0, sampleAt 0).2 ∈ [sampleAt 0] ∧ dateOf (0, sampleAt 0).2.dt = (0, sampleAt 0).1 :=
  (retained_distinct_dates_from_input [sampleAt 0]).2 (0, sampleAt 0) (by decide)

lemma validateCoords_in_range (lat lon : ℚ) (loc : Option String)
    (h1 : -90 ≤ lat) (h2 : lat ≤ 90) (h3 : -180 ≤ lon) (h4 : lon ≤ 180) :
    validateCoords (some ⟨some lat, some lon, loc⟩) = .ok (lat, lon) := by
  simp only [validateCoords]
  rw [if_neg (by simp [h1, h2]), if_neg (by simp [h3, h4])]

/-- C3: coordinates with latitude in [-90, 90] and longitude in [-180, 180]
are accepted; out-of-range or absent coordinates are rejected with HTTP 400
and a descriptive message, as is an absent body. -/
theorem validator_range_check :
    (∀ (lat lon : ℚ) (loc : Option String), -90 ≤ lat → lat ≤ 90 → -180 ≤ lon →
      lon ≤ 180 → validateCoords (some ⟨some lat, some lon, loc⟩) = .ok (lat, lon)) ∧
    (∀ (lat lon : ℚ) (loc : Option String), lat < -90 ∨ 90 < lat →
      validateCoords (some ⟨some lat, some lon, loc⟩) =
        .err 400 ("Invalid latitude. Must be between -90 and 90")) ∧
    (∀ (lat lon : ℚ) (loc : Option String), -90 ≤ lat → lat ≤ 90 →
      (lon < -180 ∨ 180 < lon) →
      validateCoords (some ⟨some lat, some lon, loc⟩) =
        .err 400 ("Invalid longitude. Must be between -180 and 180")) ∧
    (∀ (lon : Option ℚ) (loc : Option String),
      validateCoords (some ⟨none, lon, loc⟩) =
        .err 400 ("Missing required fields: latitude, longitude")) ∧
    (∀ (lat : Option ℚ) (loc : Option String),
      validateCoords (some ⟨lat, none, loc⟩) =
        .err 400 ("Missing required fields: latitude, longitude")) ∧
    validateCoords none = .err 400 ("Missing required fields: latitude, longitude") := by
  refine ⟨validateCoords_in_range, ?_, ?_, ?_, ?_, rfl⟩
  · intro lat lon loc h
    simp only [validateCoords]
    rw [if_pos]
    rintro ⟨ha, hb⟩
    rcases h with h | h <;> linarith
  · intro lat lon loc h1 h2 h
    simp only [validateCoords]
    rw [if_neg (by simp [h1, h2]), if_pos]
    rintro ⟨ha, hb⟩
    rcases h with h | h <;> linarith
  · intro lon loc
    cases lon <;> rfl
  · intro lat loc
    cases lat <;> rfl

/-- Witness for `validator_range_check` at concrete coordinates. -/
theorem validator_range_check_witness :
    validateCoords (some ⟨some 45, some 100, none⟩) = .ok (45, 100) ∧
    validateCoords (some ⟨some 91, some 0, none⟩) =
      .err 400 ("Invalid latitude. Must be between -90 and 90") ∧
    validateCoords (some ⟨some 45, some 181, none⟩) =
      .err 400 ("Invalid longitude. Must be between -180 and 180") :=
  ⟨validator_range_check.1 45 100 none (by norm_num) (by norm_num) (by norm_num)
      (by norm_num),
    validator_range_check.2.1 91 0 none (Or.inr (by norm_num)),
    validator_range_check.2.2.1 45 181 none (by norm_num) (by norm_num)
      (Or.inr (by norm_num))⟩

/-- C4: an empty upstream forecast list yields an empty summary sequence, and
the handler still replies with success. -/
theorem empty_forecast_ok :
    predictions [] = [] ∧
    ∀ (lat lon : ℚ) (key : String) (city : City) (msg : Option String),
      -90 ≤ lat → lat ≤ 90 → -180 ≤ lon → lon ≤ 180 →
      ∃ r, predict (some ⟨some lat, some lon, none⟩) (some key)
          (.response 200 msg ⟨city, []⟩) = .ok r ∧ r.predictions = [] := by
  refine ⟨rfl, ?_⟩
  intro lat lon key city msg h1 h2 h3 h4
  have hv := validateCoords_in_range lat lon none h1 h2 h3 h4
  unfold predict
  rw [hv]
  exact ⟨_, rfl, rfl⟩

/-- Witness for `empty_forecast_ok` at the origin. -/
theorem empty_forecast_ok_witness :
    ∃ r, predict (some ⟨some 0, some 0, none⟩) (some ("k"))
        (.response 200 none ⟨⟨none, none, none, none⟩, []⟩) = .ok r ∧
      r.predictions = [] :=
  empty_forecast_ok.2 0 0 ("k") ⟨none, none, none, none⟩ none (by norm_num)
    (by norm_num) (by norm_num) (by norm_num)

/-- C5: a summary's precipitation is the 3-hour rain accumulation plus the
3-hour snow accumulation, each defaulting to 0 when absent; 2.5 rain with no
snow gives 2.5, 1.0 rain with 0.5 snow gives 1.5, neither gives 0. -/
theorem precipitation_rain_plus_snow :
    (∀ (idx : Nat) (f : Forecast),
      (mkSummary idx f).precipitation = f.rain_3h.getD 0 + f.snow_3h.getD 0) ∧
    (mkSummary 0 { sampleAt 0 with rain_3h := some (5 / 2) }).precipitation = 5 / 2 ∧
    (mkSummary 0 { sampleAt 0 with rain_3h := some 1, snow_3h := some (1 / 2) }).precipitation
      = 3 / 2 ∧
    (mkSummary 0 (sampleAt 0)).precipitation = 0 := by
  refine ⟨fun _ _ => rfl, ?_, ?_, ?_⟩ <;> norm_num [mkSummary, sampleAt]

/-- C6: the summary rounds temperature, feels-like, min/max and wind speed to
one decimal; passes humidity, pressure, wind direction and cloud cover
through unrounded; title-cases the description; and keeps the visibility
value, with an `N/A` sentinel when it is absent. -/
theorem summary_field_formatting :
    (∀ (idx : Nat) (f : Forecast),
      (mkSummary idx f).temperature = round1 f.main_temp ∧
      (mkSummary idx f).feels_like = round1 f.main_feels_like ∧
      (mkSummary idx f).temp_min = round1 f.main_temp_min ∧
      (mkSummary idx f).temp_max = round1 f.main_temp_max ∧
      (mkSummary idx f).wind_speed = round1 f.wind_speed ∧
      (mkSummary idx f).humidity = f.main_humidity ∧
      (mkSummary idx f).pressure = f.main_pressure ∧
      (mkSummary idx f).wind_deg = f.wind_deg ∧
      (mkSummary idx f).cloudiness = f.clouds_all ∧
      (mkSummary idx f).weather_description = title f.weather_description) ∧
    (∀ (idx : Nat) (f : Forecast) (v : ℚ),
      (mkSummary idx { f with visibility := some v }).visibility = .num v ∧
      (mkSummary idx { f with visibility := none }).visibility = .na) ∧
    title ("light rain") = "Light Rain" ∧
    round1 (2171 / 100) = 217 / 10 ∧
    round1 (225 / 100) = 11 / 5 := by
  exact ⟨fun _ _ => ⟨rfl, rfl, rfl, rfl, rfl, rfl, rfl, rfl, rfl, rfl⟩,
    fun _ _ _ => ⟨rfl, rfl⟩, by decide, by norm_num [round1, roundHalfEven],
    by norm_num [round1, roundHalfEven]⟩

/-- C10: a null or absent training body reaches the generic handler and
yields HTTP 500 with "Failed to initiate training"; a JSON-object body is
acknowledged as queued. -/
theorem train_null_body_500 :
    trainModel none = .err 500 ("Failed to initiate training") ∧
    statusOf (trainModel none) = 500 ∧
    ∀ b : TrainBody,
      trainModel (some b) =
        .ok { message := "Training initiated", model_type := b.model_type.getD ("ensemble"),
              event_type := b.event_type, status := "queued" } ∧
      statusOf (trainModel (some b)) = 200 :=
  ⟨rfl, rfl, fun _ => ⟨rfl, rfl⟩⟩

/-- C7: the current-weather endpoint replies 200 or 500, never anything
else; in particular a missing or malformed latitude/longitude query
parameter yields 500, so there is no 400 path for bad coordinates. -/
theorem current_weather_only_500 :
    (∀ (latArg lonArg apiKey : Option String) (up : CurrentUpstream),
      statusOf (getCurrentWeather latArg lonArg apiKey up) = 200 ∨
        statusOf (getCurrentWeather latArg lonArg apiKey up) = 500) ∧
    (∀ (lonArg apiKey : Option String) (up : CurrentUpstream),
      statusOf (getCurrentWeather none lonArg apiKey up) = 500) ∧
    (∀ (latArg apiKey : Option String) (up : CurrentUpstream),
      statusOf (getCurrentWeather latArg none apiKey up) = 500) ∧
    (∀ (s : String) (lonArg apiKey : Option String) (up : CurrentUpstream),
      pyFloat s = none →
      statusOf (getCurrentWeather (some s) lonArg apiKey up) = 500) ∧
    pyFloat ("abc") = none := by
  refine ⟨?_, ?_, ?_, ?_, rfl⟩
  · intro latArg lonArg apiKey up
    unfold getCurrentWeather
    rcases latArg.bind pyFloat with _ | lat
    · right
      rcases lonArg.bind pyFloat with _ | lon <;> rfl
    · rcases lonArg.bind pyFloat with _ | lon
      · right; rfl
      · rcases apiKey with _ | k
        · right; rfl
        · rcases up with _ | ⟨status, msg, payload⟩
          · right; rfl
          · dsimp only
            by_cases hs : status ≠ 200
            · rw [if_pos hs]
              right; rfl
            · rw [if_neg hs]
              rcases payload.weather with _ | ⟨w, ws⟩
              · right; rfl
              · left; rfl
  · intro lonArg apiKey up
    unfold getCurrentWeather
    rcases lonArg.bind pyFloat with _ | lon <;> rfl
  · intro latArg apiKey up
    unfold getCurrentWeather
    rcases latArg.bind pyFloat with _ | lat <;> rfl
  · intro s lonArg apiKey up h
    unfold getCurrentWeather
    rw [show (some s).bind pyFloat = none from h]
    rcases lonArg.bind pyFloat with _ | lon <;> rfl

/-- Witness for `current_weather_only_500` on a malformed latitude. -/
theorem current_weather_only_500_witness :
    statusOf (getCurrentWeather (some ("abc")) (some ("0")) (some ("k")) .netFailure) = 500 :=
  current_weather_only_500.2.2.2.1 ("abc") (some ("0")) (some ("k")) .netFailure rfl

/-- C9: the prediction-history bounding-box filter runs only when both
coordinates parse to nonzero values; when either is absent or 0.0 every
record is considered, and the reply is capped at the limit and descending by
creation time. -/
theorem history_filter_truthiness :
    (∀ (latArg lonArg : Option ℚ) (limitArg : Option Nat) (db : List PredictionRec),
      latArg = none ∨ latArg = some 0 ∨ lonArg = none ∨ lonArg = some 0 →
      getPredictionHistory latArg lonArg limitArg db =
        (sortByCreatedDesc db).take (limitArg.getD 100)) ∧
    (∀ (lat lon : ℚ) (limitArg : Option Nat) (db : List PredictionRec),
      lat ≠ 0 → lon ≠ 0 →
      getPredictionHistory (some lat) (some lon) limitArg db =
        (sortByCreatedDesc (db.filter (inBBox lat lon))).take (limitArg.getD 100)) ∧
    (∀ (latArg lonArg : Option ℚ) (limitArg : Option Nat) (db : List PredictionRec),
      (getPredictionHistory latArg lonArg limitArg db).length ≤ limitArg.getD 100) ∧
    (∀ (latArg lonArg : Option ℚ) (limitArg : Option Nat) (db : List PredictionRec),
      (getPredictionHistory latArg lonArg limitArg db).Pairwise byCreatedDesc) := by
  refine ⟨?_, ?_, ?_, ?_⟩
  · intro latArg lonArg limitArg db h
    rcases h with h | h | h | h <;> subst h
    · cases lonArg <;> rfl
    · cases lonArg with
      | none => rfl
      | some lon =>
        unfold getPredictionHistory
        dsimp only
        rw [if_neg (by simp)]
    · cases latArg <;> rfl
    · cases latArg with
      | none => rfl
      | some lat =>
        unfold getPredictionHistory
        dsimp only
        rw [if_neg (by simp)]
  · intro lat lon limitArg db h1 h2
    unfold getPredictionHistory
    dsimp only
    rw [if_pos ⟨h1, h2⟩]
  · intro latArg lonArg limitArg db
    unfold getPredictionHistory
    rw [List.length_take]
    exact min_le_left _ _
  · intro latArg lonArg limitArg db
    unfold getPredictionHistory
    exact (List.sorted_insertionSort byCreatedDesc _).sublist (List.take_sublist _ _)

/-- Witness for `history_filter_truthiness`: a 0.0 latitude skips the
filter, nonzero coordinates apply it. -/
theorem history_filter_truthiness_witness :
    getPredictionHistory (some 0) (some 3) none [] =
      (sortByCreatedDesc []).take 100 ∧
    getPredictionHistory (some 1) (some 1) none [] =
      (sortByCreatedDesc (List.filter (inBBox 1 1) [])).take 100 :=
  ⟨history_filter_truthiness.1 (some 0) (some 3) none [] (Or.inr (Or.inl rfl)),
    history_filter_truthiness.2.1 1 1 none [] (by norm_num) (by norm_num)⟩

end Weather
